import Mathlib

/-!
Shallow embedding of the core of the `spaceappsmeteor` backend
(`physics_service.py`, `ml_service.py`, `horizons_service.py`,
`sample_data.py`, and the date-resolution block of `app.py`), together
with theorems settling the frozen claims about it.

Modelling conventions:
* Python floats are embedded as `ℝ`; `numpy` array arithmetic becomes
  componentwise real arithmetic.  Python `int(x)` (truncation toward
  zero) is `pyInt`; Python `round(x, 1)` is `round1` (Mathlib's `round`
  rounds half away from the nearest even differently from Python only on
  exact ties, which no theorem below touches).
* The external two-body propagation library (poliastro) is not part of
  the repository.  Its observable behaviour at each call site —
  orbit construction succeeding or raising, each `propagate` call
  returning a position or raising, and the internals of the analytical
  fallback's orbit queries — is abstracted as a `PropOracle`.
  `calculate_real_trajectory` and its callers are embedded as functions
  of that oracle; everything the repository's own code does (guards,
  loops, fallback selection) is embedded literally.
* Exceptions are embedded by the branch that raises them: a caught
  exception becomes the `else`/fallback branch the `except` clause
  selects.  All embedded functions are total, mirroring the fact that
  the source catches everything internally.
* Dictionaries holding a fixed set of fields become structures; the
  dict-merge loop of `_enhance_with_sample_data` becomes fieldwise
  `Option.getD`.  Formatted rationale strings are omitted from the
  mission-recommendation record (no claim mentions their content).
-/

/-- A 3-D position sample, in km (one entry of a trajectory list). -/
abbrev Pt := ℝ × ℝ × ℝ

/-- Observable behaviour of the external poliastro layer used by
`calculate_real_trajectory`:
* `constructOk sv` — whether `Orbit.from_vectors(Sun, r, v)` succeeds
  (`false` models the constructor raising, which the outer `except`
  turns into `generate_optimized_fallback`);
* `prop sv days i` — the position returned by propagating the orbit of
  `sv` to sample `i` of the `num_points`-point grid over `days` days
  (`none` models `orbit.propagate` raising at that sample);
* `ana sv days i` — the list produced by `calculate_analytical_trajectory`
  for the remaining samples `i, i+1, …` (that helper returns `[]` when
  its own orbit queries raise, so failure is already a value). -/
structure PropOracle where
  constructOk : List ℝ → Bool
  prop : List ℝ → ℚ → Nat → Option Pt
  ana : List ℝ → ℚ → Nat → List Pt

/-- Python `int(x)`: truncation toward zero. -/
noncomputable def pyInt (x : ℝ) : ℤ := if 0 ≤ x then ⌊x⌋ else -⌊-x⌋

/-- Python `round(x, 1)`: round to one decimal place. -/
noncomputable def round1 (x : ℝ) : ℝ := (round (10 * x) : ℤ) / 10

/-- The inner `for` loop of `calculate_real_trajectory`
(physics_service.py lines 73-90): propagate sample by sample; on the
first propagation failure, extend with the analytical fallback for the
remaining samples and break. `fuel` is the number of samples left. -/
def runSteps (prop : Nat → Option Pt) (ana : Nat → List Pt) : Nat → Nat → List Pt
  | _, 0 => []
  | i, fuel + 1 =>
    match prop i with
    | some p => p :: runSteps prop ana (i + 1) fuel
    | none => ana i

/-- `generate_optimized_fallback` (physics_service.py lines 121-160):
for a 6-component vector, derive a semi-major axis from vis-viva and
synthesize a 30-point parametric ellipse (eccentricity 0.15,
inclination 0.2).  The `except` branch (a 20-point minimal list) is
unreachable in real arithmetic, where none of the operations raise. -/
noncomputable def generate_optimized_fallback (stateVector : List ℝ) : List Pt :=
  match stateVector with
  | [x, y, z, vx, vy, vz] =>
    let rMag := Real.sqrt (x ^ 2 + y ^ 2 + z ^ 2)
    let vMag := Real.sqrt (vx ^ 2 + vy ^ 2 + vz ^ 2)
    let muSun : ℝ := 1.32712440018e11
    let specificEnergy := vMag ^ 2 / 2 - muSun / rMag
    let semiMajorAxis := if specificEnergy < 0 then -muSun / (2 * specificEnergy) else rMag
    let eccentricity : ℝ := 0.15
    (List.range 30).map fun i : ℕ =>
      let trueAnomaly := 2 * Real.pi * (i : ℝ) / 30
      let radius := semiMajorAxis * (1 - eccentricity ^ 2) / (1 + eccentricity * Real.cos trueAnomaly)
      let inclination : ℝ := 0.2
      (radius * Real.cos trueAnomaly,
       radius * Real.sin trueAnomaly * Real.cos inclination,
       radius * Real.sin trueAnomaly * Real.sin inclination)
  | _ => []

/-- `calculate_real_trajectory` (physics_service.py lines 49-97):
`None` or a non-6-component vector yields `[]`; otherwise construct the
orbit (construction failure selects `generate_optimized_fallback` via
the outer `except`) and run the 20-sample propagation loop. -/
noncomputable def calculate_real_trajectory (o : PropOracle)
    (stateVector : Option (List ℝ)) (propagationDays : ℚ) : List Pt :=
  match stateVector with
  | none => []
  | some sv =>
    if sv.length = 6 then
      if o.constructOk sv then
        runSteps (fun i => o.prop sv propagationDays i) (fun i => o.ana sv propagationDays i) 0 20
      else generate_optimized_fallback sv
    else []

/-- The Monte-Carlo loop of `calculate_hazard_corridor`
(physics_service.py lines 182-200): run `i = 0, …` with `fuel` runs
remaining; run 0 is the nominal propagation over 180 days, later runs
perturb the state (perturbation draw `pert i`) and propagate over 120
days; a run is kept only when it has more than 5 samples. -/
noncomputable def corridorLoop (o : PropOracle) (pert : Nat → Fin 6 → ℝ)
    (sv : List ℝ) : Nat → Nat → List (List Pt)
  | _, 0 => []
  | i, fuel + 1 =>
    let traj :=
      if i = 0 then calculate_real_trajectory o (some sv) 180
      else
        calculate_real_trajectory o
          (some (List.ofFn fun j : Fin 6 => sv.getD j 0 + pert i j)) 120
    let rest := corridorLoop o pert sv (i + 1) fuel
    if 5 < traj.length then traj :: rest else rest

/-- `calculate_hazard_corridor` (physics_service.py lines 173-207):
guard malformed vectors, run the Monte-Carlo loop, and if every run was
discarded return a singleton with a nominal re-propagation at the
default 365-day horizon.  The random normal draws are the parameter
`pert`. -/
noncomputable def calculate_hazard_corridor (o : PropOracle) (pert : Nat → Fin 6 → ℝ)
    (stateVector : Option (List ℝ)) (numSimulations : Nat) : List (List Pt) :=
  match stateVector with
  | none => []
  | some sv =>
    if sv.length = 6 then
      let allTrajectories := corridorLoop o pert sv 0 numSimulations
      if allTrajectories.isEmpty then [calculate_real_trajectory o (some sv) 365]
      else allTrajectories
    else []

/-- Velocity components (`state_vector[3:]`) of a 6-component state vector. -/
def velOf (sv : List ℝ) : Pt := (sv.getD 3 0, sv.getD 4 0, sv.getD 5 0)

/-- Euclidean norm of a 3-vector (`np.linalg.norm`). -/
noncomputable def vnorm3 (p : Pt) : ℝ := Real.sqrt (p.1 ^ 2 + p.2.1 ^ 2 + p.2.2 ^ 2)

/-- Normalized direction of a 3-vector. -/
noncomputable def dirOf (p : Pt) : Pt := (p.1 / vnorm3 p, p.2.1 / vnorm3 p, p.2.2 / vnorm3 p)

/-- The deflected state built by `recalculate_trajectory_with_deflection`
(physics_service.py lines 222-233): effective delta-v from the beta
factor 3.6 and efficiency 0.85, applied anti-parallel to the current
velocity (converted from m/s to km/s). -/
noncomputable def deflectedState (sv : List ℝ) (dvMs asteroidMassKg interceptorMassKg : ℝ) :
    List ℝ :=
  let v := velOf sv
  let vn := vnorm3 v
  let momentumRatio := interceptorMassKg * 0.85 / asteroidMassKg
  let actualDvMs := dvMs * 3.6 * momentumRatio
  let s := actualDvMs / 1000
  [sv.getD 0 0, sv.getD 1 0, sv.getD 2 0,
   v.1 + -v.1 / vn * s, v.2.1 + -v.2.1 / vn * s, v.2.2 + -v.2.2 / vn * s]

/-- `recalculate_trajectory_with_deflection` (physics_service.py lines
209-241): malformed input yields `[]`; zero velocity magnitude returns
the undeflected propagation; a zero asteroid mass raises
`ZeroDivisionError`, whose `except` also returns the undeflected
propagation; otherwise the deflected state is propagated. -/
noncomputable def recalculate_trajectory_with_deflection (o : PropOracle)
    (stateVector : Option (List ℝ)) (dvMs : Option ℝ)
    (asteroidMassKg interceptorMassKg : ℝ) : List Pt :=
  match stateVector, dvMs with
  | some sv, some dv =>
    if sv.length = 6 then
      if vnorm3 (velOf sv) = 0 then calculate_real_trajectory o (some sv) 365
      else if asteroidMassKg = 0 then calculate_real_trajectory o (some sv) 365
      else
        calculate_real_trajectory o
          (some (deflectedState sv dv asteroidMassKg interceptorMassKg)) 365
    else []
  | _, _ => []

/-- The `ASTEROID_DENSITIES` table lookup of physics_service.py. -/
def densityOf (spectralType : String) : ℝ :=
  if spectralType = "C" then 1380
  else if spectralType = "S" then 2720
  else if spectralType = "M" then 5320
  else 2000

/-- `calculate_asteroid_mass` (physics_service.py lines 15-26):
spherical mass from the composition density table. -/
noncomputable def calculate_asteroid_mass (diameterM : ℝ) (spectralType : String) : ℝ :=
  densityOf spectralType * (4 / 3 * Real.pi * (diameterM / 2) ^ 3)

/-- `calculate_required_delta_v` (physics_service.py lines 28-47).
A zero lead time raises `ZeroDivisionError`, whose `except` returns
0.005; otherwise the result is the miss distance over the amplified
lead time, floored at the practical minimum 0.0001 m/s.  The asteroid
mass argument is only logged. -/
noncomputable def calculate_required_delta_v (_asteroidMassKg timeToImpactDays missKm : ℝ) :
    ℝ :=
  let timeToImpactSeconds := timeToImpactDays * 24 * 3600
  if timeToImpactSeconds = 0 then 0.005
  else max (missKm * 1000 / (2.5 * 3.6 * timeToImpactSeconds)) 0.0001

/-- The consequence-estimate bundle returned by
`predict_consequences_with_physics` / `predict_consequences_with_ai`. -/
structure Consequences where
  economicDamageUsd : ℝ
  predictedCasualties : ℤ
  seismicMagnitude : ℝ
  inundationRadiusKm : ℝ
  craterDiameterKm : ℝ
  blastRadiusKm : ℝ
  impactEnergyMegatons : ℝ
  calculatedMassKg : ℝ

/-- The literal dictionary returned by the `except` branch of
`predict_consequences_with_physics` (ml_service.py lines 236-246). -/
def fallbackConsequences : Consequences :=
  { economicDamageUsd := 8.5e12
    predictedCasualties := 1500000
    seismicMagnitude := 8.1
    inundationRadiusKm := 25
    craterDiameterKm := 5.0
    blastRadiusKm := 50
    impactEnergyMegatons := 500
    calculatedMassKg := 2.7e10 }

/-- `predict_consequences_with_physics` (ml_service.py lines 191-246).
With non-positive kinetic energy, `math.log10(energy_joules)` raises and
the `except` branch returns the canned fallback estimate; otherwise the
formulas are applied literally (the impact-angle argument is unused in
the source as well). -/
noncomputable def predict_consequences_with_physics
    (diameterM velocityKms _impactAngleDeg populationDensity : ℝ)
    (isOceanic : Bool) (spectralType : String) : Consequences :=
  let massKg := calculate_asteroid_mass diameterM spectralType
  let velocityMs := velocityKms * 1000
  let energyJoules := 0.5 * massKg * velocityMs ^ 2
  if energyJoules ≤ 0 then fallbackConsequences
  else
    let energyMegatons := energyJoules / 4.184e15
    let craterDiameter := if isOceanic then diameterM * 2.0 else diameterM * 15.0
    let seismicMagnitude := 0.67 * Real.logb 10 energyJoules - 5.87
    let blastRadiusKm := 0.1 * energyMegatons ^ ((1 : ℝ) / 3) * 10
    let baseEconomicDamage := energyMegatons * 1e9
    let densityMultiplier := 1 + populationDensity / 100
    let economicDamageUsd := baseEconomicDamage * densityMultiplier
    let predictedCasualties :=
      if 10 < blastRadiusKm then
        min (Real.pi * blastRadiusKm ^ 2 * populationDensity * 0.3) 5000000
      else min (blastRadiusKm * populationDensity * 100) 100000
    let tsunamiHeight := if isOceanic then 0.5 * energyMegatons ^ (0.25 : ℝ) * 10 else 0
    let inundationRadius := if isOceanic then tsunamiHeight * 100 else 0
    { economicDamageUsd := economicDamageUsd
      predictedCasualties := pyInt predictedCasualties
      seismicMagnitude := round1 seismicMagnitude
      inundationRadiusKm := round1 inundationRadius
      craterDiameterKm := round1 (craterDiameter / 1000)
      blastRadiusKm := round1 blastRadiusKm
      impactEnergyMegatons := round1 energyMegatons
      calculatedMassKg := massKg }

/-- The adjustment-factor bundle of `calculate_ai_enhancement`. -/
structure AiFactors where
  economic : ℝ
  casualties : ℝ
  seismic : ℝ
  tsunami : ℝ
  crater : ℝ
  blast : ℝ

/-- `calculate_ai_enhancement` (ml_service.py lines 61-74). -/
noncomputable def calculate_ai_enhancement (diameter velocity populationDensity : ℝ) :
    AiFactors :=
  let sizeFactor := Real.logb 10 diameter / 3.0
  let velocityFactor := velocity / 20.0
  let densityFactor := populationDensity / 100.0
  { economic := 0.8 + 0.4 * sizeFactor * densityFactor
    casualties := 0.7 + 0.6 * sizeFactor * densityFactor
    seismic := 0.1 * sizeFactor
    tsunami := 0.9 + 0.2 * sizeFactor
    crater := 1.0 + 0.3 * sizeFactor
    blast := 0.8 + 0.4 * velocityFactor }

/-- `predict_consequences_with_ai` (ml_service.py lines 25-59), with the
dict-parameter plumbing (`nasa_params` / `earth_params` lookups with
defaults) elided: the four extracted values are passed directly, and the
physics stage is called exactly as at line 33 (default angle 45 and
default spectral type "S").  For `diameter ≤ 0`, NumPy's `log10` yields
NaN, the later `int()` raises, and the `except` returns the raw physics
estimate unmodified — embedded as the `else` branch. -/
noncomputable def predict_consequences_with_ai
    (diameterM velocityKms populationDensity : ℝ) (isOceanic : Bool) : Consequences :=
  let p := predict_consequences_with_physics diameterM velocityKms 45 populationDensity
    isOceanic "S"
  if 0 < diameterM then
    let f := calculate_ai_enhancement diameterM velocityKms populationDensity
    { economicDamageUsd := p.economicDamageUsd * f.economic
      predictedCasualties := pyInt ((p.predictedCasualties : ℝ) * f.casualties)
      seismicMagnitude := p.seismicMagnitude + f.seismic
      inundationRadiusKm := p.inundationRadiusKm * f.tsunami
      craterDiameterKm := p.craterDiameterKm * f.crater
      blastRadiusKm := p.blastRadiusKm * f.blast
      impactEnergyMegatons := p.impactEnergyMegatons
      calculatedMassKg := p.calculatedMassKg }
  else p

/-- A mission recommendation (rationale strings, which only interpolate
the inputs into fixed templates, are omitted). -/
structure MissionRec where
  source : String
  interceptorKind : String
  confidenceScore : ℝ
  modelKind : String

/-- `get_physics_based_recommendation` (ml_service.py lines 156-189):
the deterministic rule ladder used when the classifier is unavailable. -/
noncomputable def get_physics_based_recommendation
    (ltiDays deltaV asteroidMassKg _asteroidDiameterM : ℝ) : MissionRec :=
  if ltiDays < 180 then
    { source := "Earth Launch Vehicle"
      interceptorKind := "Rapid Response Kinetic Impactor"
      confidenceScore := 75.0
      modelKind := "physics_fallback" }
  else if 1e12 < asteroidMassKg then
    { source := "Cislunar Depot"
      interceptorKind := "Nuclear Disruption Device"
      confidenceScore := 88.0
      modelKind := "physics_fallback" }
  else if 0.02 < deltaV then
    { source := "Earth Launch Vehicle"
      interceptorKind := "Heavy Kinetic Impactor"
      confidenceScore := 82.0
      modelKind := "physics_fallback" }
  else
    { source := "Cislunar Depot"
      interceptorKind := "Enhanced Kinetic Impactor (DART-Style)"
      confidenceScore := 91.5
      modelKind := "physics_fallback" }

/-- `recommend_mission_plan_with_ai` (ml_service.py lines 76-119).  The
loaded classifier artifact is external (a pickle, not repository code);
its predict / predict-proba / label-postprocessing path is abstracted as
a function of the three features `(lti_days, delta_v, log10(mass))` that
either yields a recommendation or fails; `none` for the classifier
models `MISSION_PLANNER_MODEL is None`, and a failing call models the
`except` at line 117.  Both select the physics fallback. -/
noncomputable def recommend_mission_plan_with_ai
    (classifier : Option (ℝ → ℝ → ℝ → Option MissionRec))
    (ltiDays deltaV asteroidMassKg asteroidDiameterM : ℝ) : MissionRec :=
  match classifier with
  | none => get_physics_based_recommendation ltiDays deltaV asteroidMassKg asteroidDiameterM
  | some c =>
    match c ltiDays deltaV (Real.logb 10 asteroidMassKg) with
    | some r => r
    | none => get_physics_based_recommendation ltiDays deltaV asteroidMassKg asteroidDiameterM

/-- `_calculate_data_integrity` (horizons_service.py lines 399-412):
additive presence score, capped at 100. -/
def calcDataIntegrity (hasStateVector hasDiameter hasCloseApproach hasJplOrbital : Bool) :
    ℕ :=
  let score :=
    (if hasStateVector then 40 else 0) + (if hasDiameter then 30 else 0) +
      (if hasCloseApproach then 20 else 0) + (if hasJplOrbital then 10 else 0)
  min 100 score

/-- The past-date handling block of `full_analysis` (app.py lines
208-235), for a parsed approach date.  Dates are day numbers (ℤ).
`known` is the `known_approach_dates` lookup for the asteroid id;
`period`, `rLow`, `rHigh` are the `random.randint(365, 1095)`,
`random.randint(730, 1095)` and `random.randint(1825, 3650)` draws.
Returns `(lti_days, approach_date_str)` — note the code updates the
reported date string only in the known-id branch. -/
def resolveLti (known : Option ℤ) (approachDate today period rLow rHigh : ℤ) : ℤ × ℤ :=
  let ltiDays := approachDate - today
  if ltiDays < 0 then
    match known with
    | some kd => (kd - today, kd)
    | none =>
      let elapsed := -ltiDays
      let cyclesNeeded := elapsed / period + 1
      let advanced := cyclesNeeded * period - elapsed
      let clamped :=
        if advanced < 730 then rLow else if 3650 < advanced then rHigh else advanced
      (clamped, approachDate)
  else if ltiDays = 0 then (1, approachDate) else (ltiDays, approachDate)

/-- One close-approach entry (string fields exactly as in the source
dictionaries). -/
structure CloseApproach where
  date : String
  dateFull : String
  velKms : String
  missKm : String
  deriving Repr, DecidableEq

/-- The fields of a sample-asteroid record that the claims touch
(`sample_data.py`). -/
structure SampleRec where
  ident : String
  name : String
  diamMinM : ℝ
  diamMaxM : ℝ
  ca : CloseApproach
  spectral : String

/-- The Apophis record `apophis_data` (sample_data.py lines 8-102),
restricted to the embedded fields. -/
def apophisData : SampleRec :=
  { ident := "2099942"
    name := "99942 Apophis (2004 MN4)"
    diamMinM := 310.2736119973
    diamMaxM := 693.7923331601
    ca := { date := "2029-04-13", dateFull := "2029-Apr-13 21:46"
            velKms := "7.429", missKm := "31664.5" }
    spectral := "S" }

/-- The Bennu entry of `sample_asteroids` (sample_data.py lines 106-131). -/
def bennuData : SampleRec :=
  { ident := "2101955"
    name := "101955 Bennu (1999 RQ36)"
    diamMinM := 420.0
    diamMaxM := 580.0
    ca := { date := "2135-09-25", dateFull := "2135-Sep-25 12:00"
            velKms := "7.2", missKm := "750000" }
    spectral := "B" }

/-- The Itokawa entry of `sample_asteroids` (sample_data.py lines
133-158). -/
def itokawaData : SampleRec :=
  { ident := "2025143"
    name := "25143 Itokawa (1998 SF36)"
    diamMinM := 330.0
    diamMaxM := 530.0
    ca := { date := "2030-04-15", dateFull := "2030-Apr-15 08:30"
            velKms := "8.1", missKm := "1500000" }
    spectral := "S" }

/-- The Didymos entry of `sample_asteroids` (sample_data.py lines
160-185). -/
def didymosData : SampleRec :=
  { ident := "2065803"
    name := "65803 Didymos (1996 GT)"
    diamMinM := 780.0
    diamMaxM := 850.0
    ca := { date := "2123-11-20", dateFull := "2123-Nov-20 15:45"
            velKms := "6.1", missKm := "11000000" }
    spectral := "S" }

/-- `get_sample_asteroid` (sample_data.py lines 188-196): `"99942"` and
every id outside the `sample_asteroids` table yield (a copy of) the
Apophis record. -/
def get_sample_asteroid (asteroidId : String) : SampleRec :=
  if asteroidId = "99942" then apophisData
  else if asteroidId = "101955" then bennuData
  else if asteroidId = "25143" then itokawaData
  else if asteroidId = "65803" then didymosData
  else apophisData

/-- The accumulated body record of `get_asteroid_data`, restricted to
the keys `_enhance_with_sample_data` manipulates: each field is `none`
when the key is absent from the dict. -/
structure BodyData where
  name : Option String
  diam : Option (ℝ × ℝ)
  ca : Option CloseApproach
  sv : Option (List ℝ)

/-- The empty record: the merged dict when every upstream source failed. -/
def emptyBodyData : BodyData := { name := none, diam := none, ca := none, sv := none }

/-- The `known_approach_dates` table of `_enhance_with_sample_data`
(horizons_service.py lines 311-318). -/
def knownApproachDatesH (asteroidId : String) : Option String :=
  if asteroidId = "99942" ∨ asteroidId = "2099942" then some "2029-04-13"
  else if asteroidId = "101955" ∨ asteroidId = "2101955" then some "2135-09-25"
  else if asteroidId = "25143" ∨ asteroidId = "2025143" then some "2030-04-15"
  else none

/-- `_enhance_with_sample_data` (horizons_service.py lines 304-346):
fetch the sample record, override its close-approach date with the
curated date (or the generated random 2-10-years-ahead date `genDate`
for other ids), merge the sample into the record for keys not already
present, and guarantee a state vector. -/
def enhanceWithSampleData (data : BodyData) (asteroidId : String) (genDate : String) :
    BodyData :=
  let sample := get_sample_asteroid asteroidId
  let dateStr := (knownApproachDatesH asteroidId).getD genDate
  let sampleCa : CloseApproach :=
    { sample.ca with date := dateStr, dateFull := dateStr }
  { name := some (data.name.getD sample.name)
    diam := some (data.diam.getD (sample.diamMinM, sample.diamMaxM))
    ca := some (data.ca.getD sampleCa)
    sv := some (data.sv.getD [1.5e8, 0, 0, 0, 30.0, 0]) }

/-- An oracle on which every poliastro call fails: orbit construction
raises for every vector. -/
def oracleConstructFail : PropOracle :=
  { constructOk := fun _ => false
    prop := fun _ _ _ => none
    ana := fun _ _ _ => [] }

/-- An oracle on which orbit construction succeeds but the very first
`propagate` call raises and the analytical fallback's own orbit queries
raise as well (so it returns `[]`). -/
def oracleDropAll : PropOracle :=
  { constructOk := fun _ => true
    prop := fun _ _ _ => none
    ana := fun _ _ _ => [] }

/-- An oracle on which every propagation sample succeeds. -/
def oracleAllOk : PropOracle :=
  { constructOk := fun _ => true
    prop := fun _ _ _ => some (0, 0, 0)
    ana := fun _ _ _ => [] }

/-- An oracle on which the 180-day nominal run fails at its first sample
(with a failing analytical fallback) while 120-day perturbed runs
succeed at every sample. -/
def oracleNominalFails : PropOracle :=
  { constructOk := fun _ => true
    prop := fun _ days _ => if days = 120 then some (1, 1, 1) else none
    ana := fun _ _ _ => [] }

/-- The generic 1-AU state vector used throughout the fallbacks. -/
def genericSV : List ℝ := [1.5e8, 0, 0, 0, 30.0, 0]

/-! ## Theorems -/

/-- C5: the data-integrity score is additive over present fields (+40
state vector, +30 diameter, +20 close-approach, +10 secondary orbital
data), capped at 100, and monotonically non-decreasing as fields become
present. -/
theorem claim5_integrity_score :
    (∀ sv d ca orb : Bool,
      calcDataIntegrity sv d ca orb =
        min 100 ((if sv then 40 else 0) + (if d then 30 else 0) +
          (if ca then 20 else 0) + (if orb then 10 else 0))) ∧
    (∀ sv d ca orb : Bool, calcDataIntegrity sv d ca orb ≤ 100) ∧
    (∀ sv₁ d₁ ca₁ orb₁ sv₂ d₂ ca₂ orb₂ : Bool,
      (sv₁ = true → sv₂ = true) → (d₁ = true → d₂ = true) →
      (ca₁ = true → ca₂ = true) → (orb₁ = true → orb₂ = true) →
      calcDataIntegrity sv₁ d₁ ca₁ orb₁ ≤ calcDataIntegrity sv₂ d₂ ca₂ orb₂) := by
  refine ⟨?_, ?_, ?_⟩ <;> decide

/-- Witness for C5 at a concrete pair of records: {diameter} present
versus {state vector, diameter, secondary orbital data} present. -/
theorem claim5_witness :
    calcDataIntegrity false true false false ≤ calcDataIntegrity true true false true :=
  claim5_integrity_score.2.2 false true false false true true false true
    (by decide) (by decide) (by decide) (by decide)

/-- C6 (amended): the resolved lead time is always at least one day —
a past date is advanced by whole orbital periods and clamped into the
coded ranges, or replaced by the curated date for special-cased bodies
(provided that curated date lies in the future) — and for special-cased
bodies the reported date string is replaced by the curated date.  (As
stated the claim is false: for non-special-cased bodies only the lead
time is advanced, while the reported date string keeps the past date,
see the counterexample.) -/
theorem claim6_lead_time_amended :
    ∀ (known : Option ℤ) (approach today period rLow rHigh : ℤ),
      365 ≤ period → period ≤ 1095 →
      730 ≤ rLow → rLow ≤ 1095 →
      1825 ≤ rHigh → rHigh ≤ 3650 →
      (∀ kd, known = some kd → today < kd) →
      1 ≤ (resolveLti known approach today period rLow rHigh).1 ∧
      (approach - today < 0 → ∀ kd, known = some kd →
        (resolveLti known approach today period rLow rHigh).2 = kd) := by
  intro known approach today period rLow rHigh h1 h2 h3 h4 h5 h6 hk
  rcases known with _ | kd
  · constructor
    · unfold resolveLti
      by_cases hlt : approach - today < 0
      · rw [if_pos hlt]
        simp only
        split_ifs with hA hB <;> omega
      · rw [if_neg hlt]
        split_ifs with h0 <;> omega
    · intro _ kd hkd
      exact absurd hkd (by simp)
  · have hkd := hk kd rfl
    constructor
    · unfold resolveLti
      by_cases hlt : approach - today < 0
      · rw [if_pos hlt]
        simp only
        omega
      · rw [if_neg hlt]
        split_ifs with h0 <;> omega
    · intro hpast kd' hkd'
      injection hkd' with h
      subst h
      unfold resolveLti
      rw [if_pos hpast]

/-- C6 counterexample: for a non-special-cased body whose upstream
approach date is 400 days in the past (today = day 0, approach =
day −400) and in-range random draws (period 365, clamp draws 730 and
1825), the code advances the lead time to 730 days but still reports
the past date −400 downstream — refuting "the resolved close-approach
date reported downstream is never earlier than the call-time now". -/
theorem claim6_counterexample :
    (resolveLti none (-400) 0 365 730 1825).2 = -400 ∧
    (resolveLti none (-400) 0 365 730 1825).2 < 0 ∧
    (resolveLti none (-400) 0 365 730 1825).1 = 730 := by decide

/-- Witness for C6 at concrete inputs: a known body (curated date day
900) seen 100 days after its recorded approach. -/
theorem claim6_witness :
    1 ≤ (resolveLti (some 900) (-100) 0 400 800 2000).1 ∧
    ((-100:ℤ) - 0 < 0 → ∀ kd, (some 900 : Option ℤ) = some kd →
      (resolveLti (some 900) (-100) 0 400 800 2000).2 = kd) :=
  claim6_lead_time_amended (some 900) (-100) 0 400 800 2000
    (by norm_num) (by norm_num) (by norm_num) (by norm_num) (by norm_num) (by norm_num)
    (by intro kd h; injection h with h; omega)

/-- C9: for positive lead time, the required delta-v equals
`max(miss_distance_m / (9.0 · lead_time_seconds), 0.0001)` — hence is
at least 0.0001 m/s — and does not depend on the asteroid-mass
argument. -/
theorem claim9_required_delta_v :
    ∀ (m m' t miss : ℝ), 0 < t →
      calculate_required_delta_v m t miss =
        max (miss * 1000 / (9.0 * (t * 86400))) 0.0001 ∧
      calculate_required_delta_v m t miss = calculate_required_delta_v m' t miss ∧
      0.0001 ≤ calculate_required_delta_v m t miss := by
  intro m m' t miss ht
  have hne : t * 24 * 3600 ≠ 0 := by positivity
  have heq : (2.5 * 3.6 * (t * 24 * 3600) : ℝ) = 9.0 * (t * 86400) := by ring
  have key : ∀ mm : ℝ, calculate_required_delta_v mm t miss =
      max (miss * 1000 / (9.0 * (t * 86400))) 0.0001 := by
    intro mm
    unfold calculate_required_delta_v
    simp only
    rw [if_neg hne, heq]
  refine ⟨key m, (key m).trans (key m').symm, ?_⟩
  rw [key m]
  exact le_max_right _ _

/-- Witness for C9: two different masses, lead time 10 days, miss
distance 10000 km. -/
theorem claim9_witness :
    calculate_required_delta_v 1e10 10 10000 =
      max ((10000:ℝ) * 1000 / (9.0 * (10 * 86400))) 0.0001 ∧
    calculate_required_delta_v 1e10 10 10000 = calculate_required_delta_v 2e10 10 10000 ∧
    (0.0001:ℝ) ≤ calculate_required_delta_v 1e10 10 10000 :=
  claim9_required_delta_v 1e10 2e10 10 10000 (by norm_num)

/-- C8: with no classifier loaded (or a failing prediction), the rule
ladder yields: lead time < 180 days ⇒ rapid Earth-launch kinetic
impactor regardless of mass and delta-v; else mass > 10¹² kg ⇒ nuclear
disruption from the cislunar depot; else delta-v > 0.02 ⇒ heavy
Earth-launch kinetic impactor; else the default enhanced cislunar
kinetic impactor — each with its fixed literal confidence. -/
theorem claim8_rule_ladder :
    ∀ (lti dv m d : ℝ),
      (lti < 180 →
        recommend_mission_plan_with_ai none lti dv m d =
          { source := "Earth Launch Vehicle"
            interceptorKind := "Rapid Response Kinetic Impactor"
            confidenceScore := 75.0, modelKind := "physics_fallback" }) ∧
      (¬ lti < 180 → 1e12 < m →
        recommend_mission_plan_with_ai none lti dv m d =
          { source := "Cislunar Depot"
            interceptorKind := "Nuclear Disruption Device"
            confidenceScore := 88.0, modelKind := "physics_fallback" }) ∧
      (¬ lti < 180 → ¬ 1e12 < m → 0.02 < dv →
        recommend_mission_plan_with_ai none lti dv m d =
          { source := "Earth Launch Vehicle"
            interceptorKind := "Heavy Kinetic Impactor"
            confidenceScore := 82.0, modelKind := "physics_fallback" }) ∧
      (¬ lti < 180 → ¬ 1e12 < m → ¬ 0.02 < dv →
        recommend_mission_plan_with_ai none lti dv m d =
          { source := "Cislunar Depot"
            interceptorKind := "Enhanced Kinetic Impactor (DART-Style)"
            confidenceScore := 91.5, modelKind := "physics_fallback" }) ∧
      (∀ c : ℝ → ℝ → ℝ → Option MissionRec, c lti dv (Real.logb 10 m) = none →
        recommend_mission_plan_with_ai (some c) lti dv m d =
          recommend_mission_plan_with_ai none lti dv m d) := by
  intro lti dv m d
  refine ⟨?_, ?_, ?_, ?_, ?_⟩
  · intro h
    simp only [recommend_mission_plan_with_ai, get_physics_based_recommendation, if_pos h]
  · intro h1 h2
    simp only [recommend_mission_plan_with_ai, get_physics_based_recommendation,
      if_neg h1, if_pos h2]
  · intro h1 h2 h3
    simp only [recommend_mission_plan_with_ai, get_physics_based_recommendation,
      if_neg h1, if_neg h2, if_pos h3]
  · intro h1 h2 h3
    simp only [recommend_mission_plan_with_ai, get_physics_based_recommendation,
      if_neg h1, if_neg h2, if_neg h3]
  · intro c hc
    simp only [recommend_mission_plan_with_ai, hc]

/-- Witness for C8: lead time 100 days with a huge mass (10¹³ kg) and a
large delta-v (0.5 m/s) still yields the rapid Earth-launch kinetic
archetype. -/
theorem claim8_witness :
    recommend_mission_plan_with_ai none 100 0.5 1e13 500 =
      { source := "Earth Launch Vehicle"
        interceptorKind := "Rapid Response Kinetic Impactor"
        confidenceScore := 75.0, modelKind := "physics_fallback" } :=
  (claim8_rule_ladder 100 0.5 1e13 500).1 (by norm_num)

/-- C10: for every identifier other than "101955", "25143" and "65803",
`get_sample_asteroid` returns the Apophis record, and the enhanced body
record produced when all upstream sources fail carries Apophis's name,
diameter and approach velocity / miss distance (the approach date is the
synthesized future date). -/
theorem claim10_sample_fallback :
    ∀ (asteroidId genDate : String),
      asteroidId ≠ "101955" → asteroidId ≠ "25143" → asteroidId ≠ "65803" →
      get_sample_asteroid asteroidId = apophisData ∧
      (enhanceWithSampleData emptyBodyData asteroidId genDate).name =
        some apophisData.name ∧
      (enhanceWithSampleData emptyBodyData asteroidId genDate).diam =
        some (apophisData.diamMinM, apophisData.diamMaxM) ∧
      (enhanceWithSampleData emptyBodyData asteroidId genDate).ca.map
        CloseApproach.velKms = some apophisData.ca.velKms ∧
      (enhanceWithSampleData emptyBodyData asteroidId genDate).ca.map
        CloseApproach.missKm = some apophisData.ca.missKm := by
  intro asteroidId genDate h1 h2 h3
  have hs : get_sample_asteroid asteroidId = apophisData := by
    unfold get_sample_asteroid
    by_cases a : asteroidId = "99942"
    · rw [if_pos a]
    · rw [if_neg a, if_neg h1, if_neg h2, if_neg h3]
  refine ⟨hs, ?_, ?_, ?_, ?_⟩ <;>
    simp [enhanceWithSampleData, emptyBodyData, hs]

/-- Witness for C10 at the concrete unknown identifier "31415": the
resolved record carries Apophis's name. -/
theorem claim10_witness :
    get_sample_asteroid "31415" = apophisData ∧
    (enhanceWithSampleData emptyBodyData "31415" "2030-01-01").name =
      some apophisData.name :=
  ⟨(claim10_sample_fallback "31415" "2030-01-01" (by decide) (by decide) (by decide)).1,
   (claim10_sample_fallback "31415" "2030-01-01" (by decide) (by decide) (by decide)).2.1⟩

/-- Helper: the analytic fallback always produces its 30-point ellipse
for a 6-component vector (its own `except` branch is unreachable in
real arithmetic). -/
theorem generate_optimized_fallback_length (sv : List ℝ) (h : sv.length = 6) :
    (generate_optimized_fallback sv).length = 30 := by
  obtain ⟨a, b, c, d, e, f, rfl⟩ : ∃ a b c d e f, sv = [a, b, c, d, e, f] := by
    match sv, h with
    | [a, b, c, d, e, f], _ => exact ⟨a, b, c, d, e, f, rfl⟩
  simp only [generate_optimized_fallback, List.length_map, List.length_range]

/-- Helper: one unfolding of the propagation loop. -/
theorem runSteps_succ (prop : Nat → Option Pt) (ana : Nat → List Pt) (i fuel : Nat) :
    runSteps prop ana i (fuel + 1) =
      match prop i with
      | some p => p :: runSteps prop ana (i + 1) fuel
      | none => ana i := rfl

/-- C1 (amended): the propagator returns `[]` for `None` and for any
non-6-component vector, and never raises (totality of the embedding);
for a 6-component vector it returns the non-empty 30-point analytic
fallback when orbit construction fails, and a non-empty sequence when
the first propagation sample succeeds.  (As stated the claim is false:
when propagation fails at the first sample and the analytical fallback
also yields nothing, a well-formed finite vector produces `[]`, see the
counterexample; and the code never checks finiteness, so non-finite
vectors are not mapped to `[]` either.) -/
theorem claim1_trajectory_propagator_amended :
    ∀ (o : PropOracle) (sv : List ℝ) (days : ℚ),
      calculate_real_trajectory o none days = [] ∧
      (sv.length ≠ 6 → calculate_real_trajectory o (some sv) days = []) ∧
      (sv.length = 6 → o.constructOk sv = false →
        (calculate_real_trajectory o (some sv) days).length = 30) ∧
      (sv.length = 6 → o.constructOk sv = true → (o.prop sv days 0).isSome →
        calculate_real_trajectory o (some sv) days ≠ []) := by
  intro o sv days
  refine ⟨rfl, ?_, ?_, ?_⟩
  · intro h
    simp [calculate_real_trajectory, h]
  · intro h6 hc
    simp only [calculate_real_trajectory, if_pos h6, hc, Bool.false_eq_true, if_false]
    exact generate_optimized_fallback_length sv h6
  · intro h6 hc hp
    obtain ⟨p, hp⟩ := Option.isSome_iff_exists.mp hp
    simp only [calculate_real_trajectory, if_pos h6, hc, if_true]
    rw [show (20 : ℕ) = 19 + 1 from rfl, runSteps_succ, hp]
    simp

/-- C1 counterexample: the generic finite 6-component state vector with
an orbit whose construction succeeds but whose first `propagate` call
raises and whose analytical fallback's orbit queries raise too
(`calculate_analytical_trajectory` then returns `[]`, lines 118-119)
yields the empty sequence — refuting "for a 6-component finite vector
the returned position sequence is non-empty". -/
theorem claim1_counterexample :
    genericSV.length = 6 ∧
    calculate_real_trajectory oracleDropAll (some genericSV) 365 = [] :=
  ⟨rfl, rfl⟩

/-- Witness for C1: a concrete 6-component vector whose orbit
construction fails yields the 30-point fallback ellipse. -/
theorem claim1_witness :
    ([1, 2, 3, 4, 5, 6] : List ℝ).length = 6 ∧
    oracleConstructFail.constructOk [1, 2, 3, 4, 5, 6] = false ∧
    (calculate_real_trajectory oracleConstructFail (some [1, 2, 3, 4, 5, 6]) 365).length
      = 30 :=
  ⟨rfl, rfl,
    (claim1_trajectory_propagator_amended oracleConstructFail [1, 2, 3, 4, 5, 6] 365).2.2.1
      rfl rfl⟩

/-- Helper: the Monte-Carlo loop keeps at most as many trajectories as
it has runs left. -/
theorem corridorLoop_length_le (o : PropOracle) (pert : Nat → Fin 6 → ℝ) (sv : List ℝ) :
    ∀ fuel i, (corridorLoop o pert sv i fuel).length ≤ fuel := by
  intro fuel
  induction fuel with
  | zero => intro i; simp [corridorLoop]
  | succ n ih =>
    intro i
    simp only [corridorLoop]
    split_ifs <;>
      first
        | (simp only [List.length_cons]
           exact Nat.succ_le_succ (ih (i + 1)))
        | exact le_trans (ih (i + 1)) (Nat.le_succ n)

/-- Helper: when the nominal 180-day run keeps more than 5 samples, it
heads the loop's output. -/
theorem corridorLoop_head (o : PropOracle) (pert : Nat → Fin 6 → ℝ) (sv : List ℝ)
    (n : ℕ) (h : 5 < (calculate_real_trajectory o (some sv) 180).length) :
    corridorLoop o pert sv 0 (n + 1) =
      calculate_real_trajectory o (some sv) 180 :: corridorLoop o pert sv 1 n := by
  simp [corridorLoop, h]

/-- C2 (amended): for a 6-component vector and N ≥ 1 the hazard
corridor contains between 1 and N trajectories (never the empty list),
and member 0 equals the nominal 180-day propagation of the same state
vector whenever that nominal run yields more than 5 samples.  (As
stated the claim is false: when the nominal run yields at most 5
samples it is discarded, and member 0 can be a perturbed trajectory,
see the counterexample.) -/
theorem claim2_hazard_corridor_amended :
    ∀ (o : PropOracle) (pert : Nat → Fin 6 → ℝ) (sv : List ℝ) (n : ℕ),
      1 ≤ n → sv.length = 6 →
      1 ≤ (calculate_hazard_corridor o pert (some sv) n).length ∧
      (calculate_hazard_corridor o pert (some sv) n).length ≤ n ∧
      (5 < (calculate_real_trajectory o (some sv) 180).length →
        (calculate_hazard_corridor o pert (some sv) n).head? =
          some (calculate_real_trajectory o (some sv) 180)) := by
  intro o pert sv n hn h6
  obtain ⟨m, rfl⟩ : ∃ m, n = m + 1 := ⟨n - 1, (Nat.succ_pred_eq_of_pos hn).symm⟩
  simp only [calculate_hazard_corridor]
  rw [if_pos h6]
  by_cases he : (corridorLoop o pert sv 0 (m + 1)).isEmpty
  · rw [if_pos he]
    refine ⟨by simp, by simp, ?_⟩
    intro h5
    rw [corridorLoop_head o pert sv m h5] at he
    simp at he
  · rw [if_neg he]
    refine ⟨?_, corridorLoop_length_le o pert sv (m + 1) 0, ?_⟩
    · exact List.length_pos.mpr (List.isEmpty_eq_false.mp (by simpa using he))
    · intro h5
      rw [corridorLoop_head o pert sv m h5]
      rfl

/-- C2 counterexample: with an orbit whose nominal 180-day run fails at
its first sample (yielding `[]`, hence discarded) while perturbed
120-day runs succeed at every sample, the corridor for the generic
state vector and N = 2 has a perturbed trajectory as member 0, not the
nominal propagation — refuting "member 0 always equals the nominal
propagation of that same state vector". -/
theorem claim2_counterexample :
    genericSV.length = 6 ∧
    (calculate_hazard_corridor oracleNominalFails (fun _ _ => 0) (some genericSV) 2).head? ≠
      some (calculate_real_trajectory oracleNominalFails (some genericSV) 180) := by
  refine ⟨rfl, ?_⟩
  have h1 : calculate_real_trajectory oracleNominalFails (some genericSV) 180 = [] := rfl
  have h2 :
      (calculate_hazard_corridor oracleNominalFails (fun _ _ => 0) (some genericSV) 2).head? =
        some (calculate_real_trajectory oracleNominalFails
          (some (List.ofFn fun j : Fin 6 => genericSV.getD j 0 + 0)) 120) := rfl
  rw [h1, h2]
  simp only [ne_eq, Option.some.injEq]
  intro hc
  have hT :
      (calculate_real_trajectory oracleNominalFails
        (some (List.ofFn fun j : Fin 6 => genericSV.getD j 0 + 0)) 120).length = 20 := rfl
  rw [hc] at hT
  simp at hT

/-- Witness for C2: with every propagation sample succeeding, a corridor
of N = 3 for the generic vector has 1 to 3 members and its member 0 is
the nominal 180-day propagation. -/
theorem claim2_witness :
    1 ≤ (calculate_hazard_corridor oracleAllOk (fun _ _ => 0) (some genericSV) 3).length ∧
    (calculate_hazard_corridor oracleAllOk (fun _ _ => 0) (some genericSV) 3).length ≤ 3 ∧
    (calculate_hazard_corridor oracleAllOk (fun _ _ => 0) (some genericSV) 3).head? =
      some (calculate_real_trajectory oracleAllOk (some genericSV) 180) := by
  obtain ⟨a, b, c⟩ :=
    claim2_hazard_corridor_amended oracleAllOk (fun _ _ => 0) genericSV 3 (by norm_num) rfl
  have h20 : (calculate_real_trajectory oracleAllOk (some genericSV) 180).length = 20 := rfl
  exact ⟨a, b, c (by rw [h20]; norm_num)⟩

/-- Helper: the velocity part of the deflected state, written out. -/
theorem velOf_deflectedState (x y z vx vy vz dv ma mi : ℝ) :
    velOf (deflectedState [x, y, z, vx, vy, vz] dv ma mi) =
      (vx + -vx / vnorm3 (vx, vy, vz) * (dv * 3.6 * (mi * 0.85 / ma) / 1000),
       vy + -vy / vnorm3 (vx, vy, vz) * (dv * 3.6 * (mi * 0.85 / ma) / 1000),
       vz + -vz / vnorm3 (vx, vy, vz) * (dv * 3.6 * (mi * 0.85 / ma) / 1000)) := by
  simp [deflectedState, velOf]

/-- C3 (amended): deflection with delta-v > 0, positive masses and a
nonzero velocity changes the initial velocity VECTOR of the state whose
propagation is returned (the effective delta-v is applied anti-parallel
to the velocity, reducing speed along the same line); with a
zero-magnitude velocity the returned trajectory is exactly the
undeflected propagation.  (As stated the claim is false: the normalized
velocity DIRECTION is unchanged, see the counterexample.) -/
theorem claim3_deflection_amended :
    ∀ (o : PropOracle) (x y z vx vy vz dv ma mi : ℝ),
      0 < dv → 0 < ma → 0 < mi →
      (¬(vx = 0 ∧ vy = 0 ∧ vz = 0) →
        recalculate_trajectory_with_deflection o (some [x, y, z, vx, vy, vz]) (some dv) ma mi =
          calculate_real_trajectory o
            (some (deflectedState [x, y, z, vx, vy, vz] dv ma mi)) 365 ∧
        velOf (deflectedState [x, y, z, vx, vy, vz] dv ma mi) ≠
          velOf [x, y, z, vx, vy, vz]) ∧
      (vx = 0 → vy = 0 → vz = 0 →
        recalculate_trajectory_with_deflection o (some [x, y, z, vx, vy, vz]) (some dv) ma mi =
          calculate_real_trajectory o (some [x, y, z, vx, vy, vz]) 365) := by
  intro o x y z vx vy vz dv ma mi hdv hma hmi
  have hvel : velOf [x, y, z, vx, vy, vz] = (vx, vy, vz) := by simp [velOf]
  constructor
  · intro hv
    have hsq : 0 < vx ^ 2 + vy ^ 2 + vz ^ 2 := by
      rcases not_and_or.mp hv with h1 | h23
      · positivity
      · rcases not_and_or.mp h23 with h2 | h3
        · positivity
        · positivity
    have hvn : 0 < vnorm3 (vx, vy, vz) := by
      rw [vnorm3]
      exact Real.sqrt_pos.mpr hsq
    have hvn' : 0 < vnorm3 (velOf [x, y, z, vx, vy, vz]) := by rw [hvel]; exact hvn
    have hs : 0 < dv * 3.6 * (mi * 0.85 / ma) / 1000 := by positivity
    have key : ∀ a : ℝ,
        a + -a / vnorm3 (vx, vy, vz) * (dv * 3.6 * (mi * 0.85 / ma) / 1000) = a → a = 0 := by
      intro a ha
      have h0 : -a / vnorm3 (vx, vy, vz) * (dv * 3.6 * (mi * 0.85 / ma) / 1000) = 0 := by
        linarith
      have h1 : -a / vnorm3 (vx, vy, vz) = 0 := by
        rcases mul_eq_zero.mp h0 with h | h
        · exact h
        · exact absurd h (ne_of_gt hs)
      have h2 : -a = 0 := by
        rcases div_eq_zero_iff.mp h1 with h | h
        · exact h
        · exact absurd h (ne_of_gt hvn)
      linarith
    refine ⟨?_, ?_⟩
    · simp only [recalculate_trajectory_with_deflection]
      rw [if_pos (show ([x, y, z, vx, vy, vz] : List ℝ).length = 6 from rfl),
        if_neg (ne_of_gt hvn'), if_neg (ne_of_gt hma)]
    · rw [velOf_deflectedState, hvel]
      intro hc
      rw [Prod.mk.injEq, Prod.mk.injEq] at hc
      obtain ⟨h3, h4, h5⟩ := hc
      exact hv ⟨key vx h3, key vy h4, key vz h5⟩
  · intro h1 h2 h3
    subst h1; subst h2; subst h3
    have hvn : vnorm3 (velOf [x, y, z, 0, 0, 0]) = 0 := by simp [velOf, vnorm3]
    simp only [recalculate_trajectory_with_deflection]
    rw [if_pos (show ([x, y, z, 0, 0, 0] : List ℝ).length = 6 from rfl), if_pos hvn]

/-- C3 counterexample: state vector [1.5e8, 0, 0, 3, 4, 0] (velocity
(3, 4, 0), magnitude 5) with applied delta-v 1 m/s > 0, asteroid mass
1530 kg and interceptor mass 500 kg gives effective delta-v
1 m/s = 0.001 km/s anti-parallel to the velocity, so the deflected
initial velocity is (2.9994, 3.9992, 0) — its normalized direction
(0.6, 0.8, 0) is exactly that of the undeflected velocity, refuting
"the deflected trajectory starts with an initial velocity direction
different from that of the undeflected trajectory". -/
theorem claim3_counterexample :
    (0:ℝ) < 1 ∧ ¬((3:ℝ) = 0 ∧ (4:ℝ) = 0 ∧ (0:ℝ) = 0) ∧
    dirOf (velOf (deflectedState [1.5e8, 0, 0, 3, 4, 0] 1 1530 500)) =
      dirOf (velOf [1.5e8, 0, 0, 3, 4, 0]) := by
  have h5 : vnorm3 ((3:ℝ), 4, 0) = 5 := by
    rw [vnorm3]
    rw [show ((3:ℝ)^2 + 4^2 + 0^2) = 5^2 by norm_num, Real.sqrt_sq (by norm_num)]
  have hvel : velOf [(1.5e8:ℝ), 0, 0, 3, 4, 0] = (3, 4, 0) := by simp [velOf]
  have hvd : velOf (deflectedState [1.5e8, 0, 0, 3, 4, 0] 1 1530 500) =
      ((2.9994:ℝ), 3.9992, 0) := by
    rw [velOf_deflectedState, h5]
    norm_num
  have hd1 : vnorm3 ((2.9994:ℝ), 3.9992, 0) = 4.999 := by
    rw [vnorm3]
    rw [show ((2.9994:ℝ)^2 + 3.9992^2 + 0^2) = 4.999^2 by norm_num,
      Real.sqrt_sq (by norm_num)]
  refine ⟨by norm_num, by norm_num, ?_⟩
  rw [hvd, hvel, dirOf, dirOf, hd1, h5]
  norm_num

/-- Witness for C3 at concrete inputs: velocity (1, 0, 0), delta-v 1,
unit masses — the returned trajectory is the propagation of the
deflected state and the initial velocity vector changed. -/
theorem claim3_witness :
    (recalculate_trajectory_with_deflection oracleConstructFail
        (some [0, 0, 0, 1, 0, 0]) (some 1) 1 1 =
      calculate_real_trajectory oracleConstructFail
        (some (deflectedState [0, 0, 0, 1, 0, 0] 1 1 1)) 365) ∧
    velOf (deflectedState [0, 0, 0, 1, 0, 0] 1 1 1) ≠ velOf [0, 0, 0, 1, 0, 0] :=
  (claim3_deflection_amended oracleConstructFail 0 0 0 1 0 0 1 1 1
    (by norm_num) (by norm_num) (by norm_num)).1 (by norm_num)

/-- Helper: every density in the composition table is positive. -/
theorem densityOf_pos (st : String) : 0 < densityOf st := by
  unfold densityOf
  split_ifs <;> norm_num

/-- Helper: truncation toward zero respects integer upper bounds that
are nonnegative. -/
theorem pyInt_le_of_le {x : ℝ} {n : ℤ} (h : x ≤ (n : ℝ)) (hn : 0 ≤ n) : pyInt x ≤ n := by
  rw [pyInt]
  split_ifs with h0
  · calc ⌊x⌋ ≤ ⌊(n : ℝ)⌋ := Int.floor_le_floor h
    _ = n := Int.floor_intCast n
  · push_neg at h0
    have hneg : -⌊-x⌋ ≤ 0 := by
      simp only [neg_nonpos]
      exact Int.le_floor.mpr (by push_cast; linarith)
    omega

/-- Helper: cube-root monotonicity, strict form. -/
theorem rpow_third_lt {a b : ℝ} (ha : 0 ≤ a) (h : a ^ (3 : ℕ) < b) : a < b ^ ((1 : ℝ) / 3) := by
  have key : a = (a ^ (3 : ℕ) : ℝ) ^ ((1 : ℝ) / 3) := by
    rw [← Real.rpow_natCast a 3, ← Real.rpow_mul ha]
    norm_num
  rw [key]
  exact Real.rpow_lt_rpow (by positivity) h (by norm_num)

/-- Helper: cube-root monotonicity. -/
theorem rpow_third_le {a b : ℝ} (ha : 0 ≤ a) (h : a ^ (3 : ℕ) ≤ b) : a ≤ b ^ ((1 : ℝ) / 3) := by
  have key : a = (a ^ (3 : ℕ) : ℝ) ^ ((1 : ℝ) / 3) := by
    rw [← Real.rpow_natCast a 3, ← Real.rpow_mul ha]
    norm_num
  rw [key]
  exact Real.rpow_le_rpow (by positivity) h (by norm_num)

/-- Helper: fourth-root monotonicity against the literal exponent 0.25
used by the tsunami formula. -/
theorem rpow_quarter_le {a b : ℝ} (ha : 0 ≤ a) (h : a ^ (4 : ℕ) ≤ b) : a ≤ b ^ ((0.25 : ℝ)) := by
  have key : a = (a ^ (4 : ℕ) : ℝ) ^ ((0.25 : ℝ)) := by
    rw [← Real.rpow_natCast a 4, ← Real.rpow_mul ha]
    norm_num
  rw [key]
  exact Real.rpow_le_rpow (by positivity) h (by norm_num)

/-- Helper: a positive one-decimal rounding forces the value to be at
least a half-decimal. -/
theorem round1_pos_bound {e : ℝ} (h : 0 < round1 e) : 1 / 20 ≤ e := by
  rw [round1] at h
  have h1 : (1 : ℤ) ≤ round (10 * e) := by
    by_contra hc
    push_neg at hc
    have hle : round (10 * e) ≤ 0 := by omega
    have : ((round (10 * e) : ℤ) : ℝ) / 10 ≤ 0 := by
      apply div_nonpos_of_nonpos_of_nonneg _ (by norm_num)
      exact_mod_cast hle
    linarith
  rw [round_eq, Int.le_floor] at h1
  push_cast at h1
  linarith

/-- Helper: values of at least 200 round to a positive one-decimal
value. -/
theorem round1_pos_of_ge {e : ℝ} (h : 200 ≤ e) : 0 < round1 e := by
  rw [round1]
  have h1 : (1 : ℤ) ≤ round (10 * e) := by
    rw [round_eq, Int.le_floor]
    push_cast
    linarith
  have : (1 : ℝ) ≤ ((round (10 * e) : ℤ) : ℝ) := by exact_mod_cast h1
  linarith

/-- C4 (amended): the physics-stage consequence estimate never predicts
more than 5,000,000 casualties, for every diameter, velocity, angle,
population density, oceanic flag and spectral type (both blast-radius
branches are clamped, and the error-fallback estimate is 1,500,000).
(As stated — extended to the secondary enhancement stage — the claim is
false: the enhancement multiplies the clamped value by a factor that
can exceed 1, see the counterexample.) -/
theorem claim4_casualties_clamp_amended :
    ∀ (d v deg pd : ℝ) (oc : Bool) (st : String),
      (predict_consequences_with_physics d v deg pd oc st).predictedCasualties ≤ 5000000 := by
  intro d v deg pd oc st
  unfold predict_consequences_with_physics
  by_cases he : 0.5 * calculate_asteroid_mass d st * (v * 1000) ^ 2 ≤ 0
  · rw [if_pos he]
    norm_num [fallbackConsequences]
  · rw [if_neg he]
    dsimp only
    split_ifs with hb
    · refine @pyInt_le_of_le _ 5000000 ?_ (by norm_num)
      push_cast
      exact min_le_right _ _
    · refine @pyInt_le_of_le _ 5000000 ?_ (by norm_num)
      push_cast
      refine le_trans (min_le_right _ _) (by norm_num)

/-- C4 counterexample: diameter 10000 m, velocity 20 km/s, population
density 100, land impact.  The physics stage clamps casualties at
exactly 5,000,000, but the enhancement stage multiplies by
0.7 + 0.6·(log10(10000)/3)·(100/100) = 1.5, returning 7,500,000 —
refuting "casualties never exceed the defined clamp (5,000,000),
including after the secondary enhancement stage". -/
theorem claim4_counterexample :
    5000000 < (predict_consequences_with_ai 10000 20 100 false).predictedCasualties := by
  have hπ := Real.pi_gt_d6
  have hm : calculate_asteroid_mass 10000 "S" = 1360000000000000 / 3 * Real.pi := by
    unfold calculate_asteroid_mass
    rw [show densityOf "S" = 2720 from by simp [densityOf]]
    ring
  have hemt : (12326391 : ℝ) ≤
      0.5 * calculate_asteroid_mass 10000 "S" * ((20 : ℝ) * 1000) ^ 2 / 4.184e15 := by
    rw [hm]
    nlinarith [hπ]
  have hx : (231 : ℝ) ≤
      (0.5 * calculate_asteroid_mass 10000 "S" * ((20 : ℝ) * 1000) ^ 2 / 4.184e15)
        ^ ((1 : ℝ) / 3) := by
    refine rpow_third_le (by norm_num) ?_
    calc (231 : ℝ) ^ (3 : ℕ) = 12326391 := by norm_num
    _ ≤ _ := hemt
  have hphys :
      (predict_consequences_with_physics 10000 20 45 100 false "S").predictedCasualties =
        5000000 := by
    unfold predict_consequences_with_physics
    simp only [if_neg Bool.false_ne_true]
    split_ifs with he hb
    · exfalso
      rw [hm] at he
      nlinarith [hπ]
    · dsimp only
      rw [min_eq_right ?_]
      · rw [pyInt, if_pos (by norm_num : (0 : ℝ) ≤ 5000000)]
        norm_num
      · have hx2 : (53361 : ℝ) ≤
            ((0.5 * calculate_asteroid_mass 10000 "S" * ((20 : ℝ) * 1000) ^ 2 / 4.184e15)
              ^ ((1 : ℝ) / 3)) ^ 2 := by nlinarith [hx]
        nlinarith [hπ, hx2,
          mul_le_mul hπ.le hx2 (by norm_num) (by positivity)]
    · exfalso
      exact hb (by nlinarith [hx])
  have hlog : Real.logb 10 (10000 : ℝ) = 4 := by
    rw [show (10000 : ℝ) = 10 ^ (4 : ℕ) by norm_num, Real.logb_pow]
    simp [Real.logb_self_eq_one]
  unfold predict_consequences_with_ai
  rw [if_pos (by norm_num : (0 : ℝ) < 10000)]
  dsimp only
  rw [hphys]
  unfold calculate_ai_enhancement
  dsimp only
  rw [hlog]
  rw [show (((5000000 : ℤ) : ℝ) * (0.7 + 0.6 * (4 / 3.0) * (100 / 100.0))) =
    ((7500000 : ℤ) : ℝ) by push_cast; norm_num]
  rw [pyInt, if_pos (by positivity), Int.floor_intCast]
  norm_num

/-- C7 (amended): for inputs with positive kinetic energy (diameter > 0
and velocity ≠ 0), a non-oceanic impact has inundation radius exactly 0,
and an oceanic impact whose returned impact energy is positive has
inundation radius > 0.  (As stated the claim is false: with non-positive
kinetic energy — e.g. diameter 0 — the error fallback returns a canned
estimate whose inundation radius is 25 regardless of the oceanic flag,
see the counterexample.) -/
theorem claim7_inundation_amended :
    ∀ (d v deg pd : ℝ) (st : String), 0 < d → v ≠ 0 →
      (predict_consequences_with_physics d v deg pd false st).inundationRadiusKm = 0 ∧
      (0 < (predict_consequences_with_physics d v deg pd true st).impactEnergyMegatons →
        0 < (predict_consequences_with_physics d v deg pd true st).inundationRadiusKm) := by
  intro d v deg pd st hd hv
  have hmass : 0 < calculate_asteroid_mass d st := by
    unfold calculate_asteroid_mass
    have hρ := densityOf_pos st
    positivity
  have hsq : 0 < (v * 1000 : ℝ) ^ 2 := by
    have hne : (v * 1000 : ℝ) ≠ 0 := mul_ne_zero hv (by norm_num)
    exact lt_of_le_of_ne (sq_nonneg _) (Ne.symm (pow_ne_zero 2 hne))
  have hE : 0 < 0.5 * calculate_asteroid_mass d st * (v * 1000) ^ 2 := by
    have := mul_pos (mul_pos (show (0:ℝ) < 0.5 by norm_num) hmass) hsq
    linarith
  have hEne : ¬ 0.5 * calculate_asteroid_mass d st * (v * 1000) ^ 2 ≤ 0 := not_le.mpr hE
  constructor
  · unfold predict_consequences_with_physics
    rw [if_neg hEne]
    simp only [if_neg Bool.false_ne_true]
    rw [round1]
    norm_num
  · intro hEmt
    unfold predict_consequences_with_physics at hEmt ⊢
    rw [if_neg hEne] at hEmt ⊢
    simp only [eq_self_iff_true, if_true] at hEmt ⊢
    have hemt : 1 / 20 ≤ 0.5 * calculate_asteroid_mass d st * (v * 1000) ^ 2 / 4.184e15 :=
      round1_pos_bound hEmt
    have hx : (2 / 5 : ℝ) ≤
        (0.5 * calculate_asteroid_mass d st * (v * 1000) ^ 2 / 4.184e15) ^ ((0.25 : ℝ)) := by
      refine rpow_quarter_le (by norm_num) ?_
      calc ((2 : ℝ) / 5) ^ (4 : ℕ) = 16 / 625 := by norm_num
      _ ≤ 1 / 20 := by norm_num
      _ ≤ _ := hemt
    exact round1_pos_of_ge (by nlinarith [hx])

/-- C7 counterexample: diameter 0 (zero kinetic energy) with
oceanic = false makes `math.log10` raise, and the `except` branch
returns the canned estimate with inundation radius 25, not 0 —
refuting "oceanic = false implies the returned inundation radius is
exactly 0". -/
theorem claim7_counterexample :
    (predict_consequences_with_physics 0 10 45 50 false "S").inundationRadiusKm = 25 ∧
    (25 : ℝ) ≠ 0 := by
  constructor
  · have hm : calculate_asteroid_mass 0 "S" = 0 := by
      unfold calculate_asteroid_mass
      norm_num
    unfold predict_consequences_with_physics
    rw [if_pos (by rw [hm]; norm_num)]
    rfl
  · norm_num

/-- Witness for C7 at concrete inputs: diameter 100 m, velocity
10 km/s, land impact — the inundation radius is exactly 0. -/
theorem claim7_witness :
    (0 : ℝ) < 100 ∧ (10 : ℝ) ≠ 0 ∧
    (predict_consequences_with_physics 100 10 45 50 false "S").inundationRadiusKm = 0 :=
  ⟨by norm_num, by norm_num,
    (claim7_inundation_amended 100 10 45 50 "S" (by norm_num) (by norm_num)).1⟩
